import Mathlib

/-!
# Verification of the retail-orders dashboard pipeline

Shallow embedding of `src/streamlit_app.py`: the connection resolver
(`get_collection`), the data loader/flattener (`load_orders`), the
conjunctive filter (`mask` / `df[mask]`), and the aggregates (KPIs,
`daily`, `by_region`, `by_channel`, `aov`, `disc`, `heat`).

Modelling conventions:
* A MongoDB document is a record of optional fields (`Option` = the field
  is absent or null); sub-records `store` / `customer` / `items` are
  `Option` as well, mirroring `d.get("store", {})` etc.
* Timestamps are seconds since the epoch as `Nat`; `pd.to_datetime` with
  `errors="coerce"` is modelled by `purchase_ts : Option Nat` (`none` =
  absent, null or unparseable, i.e. pandas `NaT`).  A calendar date at day
  granularity is the day number `t / 86400`; midnight of day `d` is
  `d * 86400`.
* Monetary / fractional values are `Option ℚ` (`none` = null/NaN).
* pandas comparisons against `NaT` are `False`; `Series.isin` never
  matches a null value here because every selectable filter value is
  non-null (the multiselect options are built with `dropna()` for
  region/channel/age and are `[True, False]` for loyalty).
* pandas `mean` of an empty (or all-null) column is NaN, modelled as
  `none`; `sum` skips nulls and is `0` on empty.
-/

namespace RetailDashboard

/-- A line item of an order (`items` array element). -/
structure Item where
  quantity : Option Nat
  category : Option String
deriving DecidableEq, Repr

/-- The `store` sub-record. -/
structure Store where
  store_city : Option String
  region : Option String
deriving DecidableEq, Repr

/-- The `customer` sub-record. -/
structure Customer where
  loyalty_member : Option Bool
  age_band : Option String
deriving DecidableEq, Repr

/-- An order document as returned by the projection query in
`load_orders` (every field optional: schema-on-read). `docId` stands for
the document's `_id`, already stringified. -/
structure Doc where
  docId : Option String
  purchase_ts : Option Nat
  purchase_date : Option String
  purchase_time : Option String
  weekday : Option String
  hour : Option Nat
  store : Option Store
  channel : Option String
  payment_method : Option String
  customer : Option Customer
  coupon_used : Option Bool
  discount_pct : Option ℚ
  subtotal : Option ℚ
  discount_amount : Option ℚ
  tax_amount : Option ℚ
  shipping_amount : Option ℚ
  total_amount : Option ℚ
  items : Option (List Item)
deriving DecidableEq, Repr

/-- A flattened order row (one per document), as built in `load_orders`. -/
structure Row where
  order_id : String
  purchase_ts : Option Nat
  purchase_date : Option String
  purchase_time : Option String
  weekday : Option String
  hour : Option Nat
  store_city : Option String
  region : Option String
  channel : Option String
  payment_method : Option String
  loyalty_member : Option Bool
  age_band : Option String
  coupon_used : Option Bool
  discount_pct : Option ℚ
  subtotal : Option ℚ
  discount_amount : Option ℚ
  tax_amount : Option ℚ
  shipping_amount : Option ℚ
  total_amount : Option ℚ
  num_items : Nat
  categories : String
deriving DecidableEq, Repr

/-- Source: `sorted({it.get("category","") for it in items})`: the set of category
labels (missing label ↦ `""`), deduplicated and sorted alphabetically. -/
def categoryList (items : List Item) : List String :=
  ((items.map (fun it => it.category.getD "")).dedup).insertionSort (· ≤ ·)

/-- Source: `",".join(sorted({it.get("category","") for it in items}))`. -/
def categoriesOf (items : List Item) : String :=
  String.intercalate "," (categoryList items)

/-- Flattening of one document (the dict literal built per `d` in
`load_orders`).  `str(d.get("_id"))` yields the Python string `"None"`
when `_id` is absent. -/
def flatten (d : Doc) : Row :=
  { order_id := d.docId.getD "None"
    purchase_ts := d.purchase_ts
    purchase_date := d.purchase_date
    purchase_time := d.purchase_time
    weekday := d.weekday
    hour := d.hour
    store_city := d.store.bind (fun s => s.store_city)
    region := d.store.bind (fun s => s.region)
    channel := d.channel
    payment_method := d.payment_method
    loyalty_member := d.customer.bind (fun c => c.loyalty_member)
    age_band := d.customer.bind (fun c => c.age_band)
    coupon_used := d.coupon_used
    discount_pct := d.discount_pct
    subtotal := d.subtotal
    discount_amount := d.discount_amount
    tax_amount := d.tax_amount
    shipping_amount := d.shipping_amount
    total_amount := d.total_amount
    num_items := ((d.items.getD []).map (fun it => it.quantity.getD 0)).sum
    categories := categoriesOf (d.items.getD []) }

/-- Source: `load_orders`: zero documents yield the empty dataset, otherwise one
flattened row per document. -/
def load_orders (docs : List Doc) : List Row :=
  if docs.isEmpty then [] else docs.map flatten

/-- A document with every field absent. -/
def emptyDoc : Doc :=
  { docId := none, purchase_ts := none, purchase_date := none
    purchase_time := none, weekday := none, hour := none, store := none
    channel := none, payment_method := none, customer := none
    coupon_used := none, discount_pct := none, subtotal := none
    discount_amount := none, tax_amount := none, shipping_amount := none
    total_amount := none, items := none }

/-! ## Connection resolver (`get_collection`) and top-level control flow -/

/-- A handle to the named database/collection, as produced by
`client[db_name][coll_name]`. -/
structure CollectionHandle where
  clientUri : String
  dbName : String
  collName : String
deriving DecidableEq, Repr

/-- Observable transport-layer effects of `get_collection`; constructing a
`MongoClient` is the (only) network-facing step. -/
inductive NetEvent where
  | clientConstructed (uri : String)
deriving DecidableEq, Repr

/-- The two recognized error kinds of the spec. -/
inductive AppError where
  | configurationError (msg : String)
  | dataSourceError (msg : String)
deriving DecidableEq, Repr

/-- Source: `get_collection(uri, db_name, coll_name)` together with the list of
network events it performs: `if not uri: raise` happens before the
`MongoClient` is constructed, so the error branch performs no network
event at all. -/
def get_collection (uri dbName collName : String) :
    Except AppError CollectionHandle × List NetEvent :=
  if uri = "" then
    (Except.error (AppError.configurationError
      "MONGO_URI is not set. Add it to Streamlit Secrets."), [])
  else
    (Except.ok { clientUri := uri, dbName := dbName, collName := collName },
      [NetEvent.clientConstructed uri])

/-- Outcome of the top-level `try/except` + `df.empty` control flow:
either a blocking error message (`st.error` + `st.stop`), the
informational empty-data message (`st.warning` + `st.stop`), or the
dashboard over the loaded rows. -/
inductive RenderOutcome where
  | errorMsg (msg : String)
  | emptyInfo
  | dashboard (rows : List Row)
deriving DecidableEq, Repr

/-- Lines 84–93 of the source: resolve the collection and run the query
(whose result, success or failure, is the external input `query`), map
any raised error to `st.error` + stop, and treat an empty dataframe as a
distinct warning state. -/
def runApp (uri dbName collName : String)
    (query : Except String (List Doc)) : RenderOutcome :=
  match (get_collection uri dbName collName).1 with
  | Except.error (AppError.configurationError m) => RenderOutcome.errorMsg m
  | Except.error (AppError.dataSourceError m) => RenderOutcome.errorMsg m
  | Except.ok _ =>
    match query with
    | Except.error e => RenderOutcome.errorMsg e
    | Except.ok docs =>
      let df := load_orders docs
      if df.isEmpty then RenderOutcome.emptyInfo
      else RenderOutcome.dashboard df

/-! ## Filters -/

/-- The sidebar filter state: a date range (day numbers, both ends
inclusive) and the four optional multiselect sets. -/
structure FilterSpec where
  start_date : Nat
  end_date : Nat
  region : List String
  channel : List String
  loyalty : List Bool
  age : List String
deriving DecidableEq, Repr

/-- Source: `df["purchase_ts"] >= bound`: a pandas comparison against `NaT` is
`False`. -/
def tsGe (ts : Option Nat) (bound : Nat) : Bool :=
  match ts with
  | none => false
  | some t => bound ≤ t

/-- Source: `df["purchase_ts"] < bound`, `False` on `NaT`. -/
def tsLt (ts : Option Nat) (bound : Nat) : Bool :=
  match ts with
  | none => false
  | some t => t < bound

/-- Source: `Series.isin(values)` for one cell; the selectable `values` never
contain a null, so a null cell never matches. -/
def optIsin {α : Type} [DecidableEq α] (v : Option α) (l : List α) : Bool :=
  match v with
  | none => false
  | some x => decide (x ∈ l)

/-- The date part of the mask: `start = to_datetime(date_range[0])`,
`end = to_datetime(date_range[1]) + 1 day`, then
`(ts >= start) & (ts < end)`. -/
def dateMask (startDay endDay : Nat) (r : Row) : Bool :=
  tsGe r.purchase_ts (startDay * 86400) && tsLt r.purchase_ts ((endDay + 1) * 86400)

/-- The full mask for one row: the date-range conjunct always applies;
each `if region: mask &= ...isin(...)` step applies only when the
selected set is non-empty. -/
def rowMask (s : FilterSpec) (r : Row) : Bool :=
  dateMask s.start_date s.end_date r
    && (if s.region.isEmpty then true else optIsin r.region s.region)
    && (if s.channel.isEmpty then true else optIsin r.channel s.channel)
    && (if s.loyalty.isEmpty then true else optIsin r.loyalty_member s.loyalty)
    && (if s.age.isEmpty then true else optIsin r.age_band s.age)

/-- Source: `f = df[mask]`. -/
def applyFilters (df : List Row) (s : FilterSpec) : List Row :=
  df.filter (rowMask s)

/-! ## Aggregates (KPIs, charts, heat table) -/

/-- Source: `len(f)`. -/
def order_count (f : List Row) : Nat := f.length

/-- Source: `f['total_amount'].sum()`: pandas sums skipping nulls, `0` on empty. -/
def total_revenue (f : List Row) : ℚ :=
  (f.filterMap (fun r => r.total_amount)).sum

/-- pandas `Series.mean` over the non-null values: NaN (`none`) when there
is nothing to average. -/
def seriesMean (l : List ℚ) : Option ℚ :=
  if l.isEmpty then none else some (l.sum / (l.length : ℚ))

/-- Source: `f['total_amount'].mean()`. -/
def avg_order_value (f : List Row) : Option ℚ :=
  seriesMean (f.filterMap (fun r => r.total_amount))

/-- Source: `f['discount_pct'].mean() * 100`. -/
def avg_discount_pct (f : List Row) : Option ℚ :=
  (seriesMean (f.filterMap (fun r => r.discount_pct))).map (· * 100)

/-- Calendar day of a timestamp (`resample("D")` bins). -/
def dayOf (t : Nat) : Nat := t / 86400

/-- The day numbers of the non-null timestamps of `f` (rows with `NaT`
are dropped by `resample(on="purchase_ts")`). -/
def tsDays (f : List Row) : List Nat :=
  (f.filterMap (fun r => r.purchase_ts)).map dayOf

/-- Revenue of one calendar day: sum of `total_amount` over the rows
whose timestamp falls in that day (nulls contribute nothing). -/
def daySum (f : List Row) (d : Nat) : ℚ :=
  ((f.filter (fun r => r.purchase_ts.map dayOf = some d)).filterMap
    (fun r => r.total_amount)).sum

/-- Source: `f.resample("D", on="purchase_ts")["total_amount"].sum()`: one bin
per calendar day from the earliest to the latest day that occurs in the
data, consecutive; a day with no rows gets the empty sum `0`. -/
def daily_revenue (f : List Row) : List (Nat × ℚ) :=
  match tsDays f with
  | [] => []
  | d :: ds =>
    let dmin := ds.foldl min d
    let dmax := ds.foldl max d
    (List.range (dmax - dmin + 1)).map (fun i => (dmin + i, daySum f (dmin + i)))

/-- Source: `groupby(key)` keys: the distinct non-null values (null keys are
dropped by pandas `groupby`). -/
def groupKeys {α : Type} [DecidableEq α] (f : List Row) (key : Row → Option α) :
    List α :=
  (f.filterMap key).dedup

/-- Sum of `total_amount` over the rows matching one group key. -/
def groupRevenue {α : Type} [DecidableEq α] (f : List Row) (key : Row → Option α)
    (g : α) : ℚ :=
  ((f.filter (fun r => key r = some g)).filterMap (fun r => r.total_amount)).sum

/-- Source: `f.groupby("region")["total_amount"].sum().sort_values(ascending=False)`. -/
def revenue_by_region (f : List Row) : List (String × ℚ) :=
  ((groupKeys f (fun r => r.region)).map
    (fun g => (g, groupRevenue f (fun r => r.region) g))).insertionSort
    (fun a b => b.2 ≤ a.2)

/-- Source: `f.groupby("channel")["total_amount"].sum().sort_values(ascending=False)`. -/
def revenue_by_channel (f : List Row) : List (String × ℚ) :=
  ((groupKeys f (fun r => r.channel)).map
    (fun g => (g, groupRevenue f (fun r => r.channel) g))).insertionSort
    (fun a b => b.2 ≤ a.2)

/-- Source: `f.groupby("loyalty_member")["total_amount"].mean().rename(...)`:
mean order value per loyalty flag present in the data (pandas sorts the
boolean keys `False < True`), relabelled for display. -/
def aov_by_loyalty (f : List Row) : List (String × Option ℚ) :=
  (((groupKeys f (fun r => r.loyalty_member)).insertionSort
      (fun a b => a ≤ b)).map
    (fun b => ((if b then "Loyalty" else "Non-Loyalty"),
      seriesMean ((f.filter (fun r => r.loyalty_member = some b)).filterMap
        (fun r => r.total_amount)))))

/-- Source: `(f.groupby("channel")["discount_pct"].mean() * 100).sort_values(ascending=False)`:
a channel whose group has only null discounts gets NaN (`none`); pandas
`sort_values` puts NaN last, which we mirror by treating `none` as never
`≥` a `some`. -/
def avg_discount_by_channel (f : List Row) : List (String × Option ℚ) :=
  ((groupKeys f (fun r => r.channel)).map
    (fun g => (g, (seriesMean ((f.filter (fun r => r.channel = some g)).filterMap
      (fun r => r.discount_pct))).map (· * 100)))).insertionSort
    (fun a b => (match a.2, b.2 with
      | some x, some y => decide (y ≤ x)
      | some _, none => true
      | none, some _ => false
      | none, none => true) = true)

/-! ## Heat table (`pivot_table` → `fillna(0)` → `reindex`) -/

/-- Source: `wd_order = ["Monday", ..., "Sunday"]`. -/
def wd_order : List String :=
  ["Monday", "Tuesday", "Wednesday", "Thursday", "Friday", "Saturday", "Sunday"]

/-- Rows usable as pivot keys: `pivot_table` drops rows with a null in
either grouping key. -/
def heatKeyed (f : List Row) : List Row :=
  f.filter (fun r => r.weekday.isSome && r.hour.isSome)

/-- The distinct weekday values that occur as pivot index labels. -/
def heatWeekdays (f : List Row) : List String :=
  ((heatKeyed f).filterMap (fun r => r.weekday)).dedup

/-- The pivot's columns: the distinct hour values present, sorted. -/
def heatHours (f : List Row) : List Nat :=
  (((heatKeyed f).filterMap (fun r => r.hour)).dedup).insertionSort (· ≤ ·)

/-- The rows contributing to one (weekday, hour) cell. -/
def cellRows (f : List Row) (w : String) (h : Nat) : List Row :=
  f.filter (fun r => r.weekday = some w && r.hour = some h)

/-- One raw pivot cell: NaN (`none`) when the combination never occurs,
otherwise the null-skipping sum of `total_amount`. -/
def pivotCell (f : List Row) (w : String) (h : Nat) : Option ℚ :=
  if (cellRows f w h).isEmpty then none
  else some (((cellRows f w h).filterMap (fun r => r.total_amount)).sum)

/-- Source: `f.pivot_table(index="weekday", columns="hour", values="total_amount",
aggfunc="sum")`: one row per weekday present, one column per hour
present. -/
def pivot_raw (f : List Row) : List (String × List (Option ℚ)) :=
  (heatWeekdays f).map (fun w => (w, (heatHours f).map (fun h => pivotCell f w h)))

/-- Source: `.fillna(0)` applied cell-wise to the pivot. -/
def fillnaZero (t : List (String × List (Option ℚ))) :
    List (String × List (Option ℚ)) :=
  t.map (fun p => (p.1, p.2.map (fun c => some (c.getD 0))))

/-- Source: `.reindex(order)`: one output row per requested label, in that order;
a label with no matching row becomes an all-NaN row. -/
def reindexRows (t : List (String × List (Option ℚ))) (ncols : Nat)
    (order : List String) : List (String × List (Option ℚ)) :=
  order.map (fun w => (w, (t.lookup w).getD (List.replicate ncols none)))

/-- Source: `heat = f.pivot_table(...).fillna(0)` then `heat.reindex(wd_order)`. -/
def revenue_heatmap (f : List Row) : List (String × List (Option ℚ)) :=
  reindexRows (fillnaZero (pivot_raw f)) (heatHours f).length wd_order

/-! ## Concrete datasets used by counterexamples and witnesses -/

/-- A row with every optional field null (what `flatten` gives the empty
document). -/
def baseRow : Row :=
  { order_id := "None", purchase_ts := none, purchase_date := none
    purchase_time := none, weekday := none, hour := none, store_city := none
    region := none, channel := none, payment_method := none
    loyalty_member := none, age_band := none, coupon_used := none
    discount_pct := none, subtotal := none, discount_amount := none
    shipping_amount := none, tax_amount := none, total_amount := none
    num_items := 0, categories := "" }

/-- A filtered dataset covering only Monday (a strict subset of the
weekdays): one order at Monday 10h worth 5. -/
def exHeat : List Row :=
  [{ baseRow with
      purchase_ts := some 0
      weekday := some "Monday"
      hour := some 10
      total_amount := some 5 }]

/-- Orders on day 0 (100) and day 2 (200), nothing on day 1. -/
def exDaily : List Row :=
  [{ baseRow with purchase_ts := some 0, total_amount := some 100 },
   { baseRow with purchase_ts := some (2 * 86400), total_amount := some 200 }]

/-- A row with a null `loyalty_member` and a timestamp on day 0. -/
def exNullRow : Row :=
  { baseRow with
      purchase_ts := some 10
      loyalty_member := none
      total_amount := some 50 }

/-- Filter over days 0..1 selecting every possible non-null loyalty
value. -/
def exSpecTF : FilterSpec :=
  { start_date := 0, end_date := 1, region := [], channel := [],
    loyalty := [true, false], age := [] }

/-- The same filter with the loyalty multiselect left empty. -/
def exSpecNoLoyalty : FilterSpec :=
  { exSpecTF with loyalty := [] }

/-! ## Helper lemmas -/

theorem ifEmpty_eq_true_iff {α : Type} (l : List α) (b : Bool) :
    (if l.isEmpty then true else b) = true ↔ (l ≠ [] → b = true) := by
  cases l <;> simp

theorem lookup_map_self {β : Type} (g : String → β) (l : List String)
    (w : String) (hnd : l.Nodup) (hw : w ∈ l) :
    (l.map (fun x => (x, g x))).lookup w = some (g w) := by
  induction l with
  | nil => cases hw
  | cons a l ih =>
    rcases List.mem_cons.mp hw with h | h
    · subst h
      simp only [List.map_cons, List.lookup, beq_self_eq_true]
    · have hna : (w == a) = false := by
        have hne : a ≠ w := by
          rintro rfl
          exact (List.nodup_cons.mp hnd).1 h
        exact beq_false_of_ne (fun hh => hne hh.symm)
      simp only [List.map_cons, List.lookup, hna]
      exact ih (List.nodup_cons.mp hnd).2 h

theorem lookup_map_self_none {β : Type} (g : String → β) (l : List String)
    (w : String) (hw : w ∉ l) :
    (l.map (fun x => (x, g x))).lookup w = none := by
  induction l with
  | nil => rfl
  | cons a l ih =>
    have hna : (w == a) = false := by
      apply beq_false_of_ne
      rintro rfl
      exact hw (List.mem_cons_self _ _)
    simp only [List.map_cons, List.lookup, hna]
    exact ih (fun h => hw (List.mem_cons_of_mem _ h))

theorem foldl_min_le_init (e : Nat) (l : List Nat) : l.foldl min e ≤ e := by
  induction l generalizing e with
  | nil => simp
  | cons a l ih =>
    calc (a :: l).foldl min e = l.foldl min (min e a) := rfl
    _ ≤ min e a := ih _
    _ ≤ e := min_le_left _ _

theorem foldl_min_le_mem (e x : Nat) (l : List Nat) (hx : x ∈ l) :
    l.foldl min e ≤ x := by
  induction l generalizing e with
  | nil => cases hx
  | cons a l ih =>
    rcases List.mem_cons.mp hx with rfl | h
    · calc (x :: l).foldl min e = l.foldl min (min e x) := rfl
      _ ≤ min e x := foldl_min_le_init _ _
      _ ≤ x := min_le_right _ _
    · exact ih _ h

theorem init_le_foldl_max (e : Nat) (l : List Nat) : e ≤ l.foldl max e := by
  induction l generalizing e with
  | nil => simp
  | cons a l ih =>
    calc e ≤ max e a := le_max_left _ _
    _ ≤ l.foldl max (max e a) := ih _
    _ = (a :: l).foldl max e := rfl

theorem mem_le_foldl_max (e x : Nat) (l : List Nat) (hx : x ∈ l) :
    x ≤ l.foldl max e := by
  induction l generalizing e with
  | nil => cases hx
  | cons a l ih =>
    rcases List.mem_cons.mp hx with rfl | h
    · calc x ≤ max e x := le_max_right _ _
      _ ≤ l.foldl max (max e x) := init_le_foldl_max _ _
      _ = (x :: l).foldl max e := rfl
    · exact ih _ h

theorem fillna_pivot_eq (f : List Row) :
    fillnaZero (pivot_raw f) =
      (heatWeekdays f).map (fun w =>
        (w, (heatHours f).map (fun h => some ((pivotCell f w h).getD 0)))) := by
  simp [fillnaZero, pivot_raw, List.map_map, Function.comp_def]

theorem heatWeekdays_nodup (f : List Row) : (heatWeekdays f).Nodup := by
  unfold heatWeekdays
  exact List.nodup_dedup _

/-! ## Claim theorems -/

/-- Claim C5: flattening is total — for every list of documents, including
documents missing the `items`, `store` or `customer` sub-records or any
optional field, the loader produces exactly one flattened row per document
(row count equals document count), with null/empty defaults for absent
fields, and never raises (here: `flatten` and `load_orders` are total Lean
functions, and the all-absent document flattens to the all-default row). -/
theorem load_orders_one_row_per_doc (docs : List Doc) :
    (load_orders docs).length = docs.length ∧ flatten emptyDoc = baseRow := by
  constructor
  · unfold load_orders
    cases docs <;> simp
  · rfl

/-- Claim C6: a query returning zero documents yields the empty dataset
(not an error, not null), and downstream the empty dataset is handled as
a distinct informational state, never as an error message. -/
theorem empty_query_distinct_state :
    load_orders [] = [] ∧
    (∀ (uri dbName collName : String), uri ≠ "" →
      runApp uri dbName collName (Except.ok []) = RenderOutcome.emptyInfo ∧
      ∀ m, runApp uri dbName collName (Except.ok []) ≠ RenderOutcome.errorMsg m) := by
  refine ⟨rfl, ?_⟩
  intro uri dbName collName h
  constructor
  · simp [runApp, get_collection, h, load_orders]
  · intro m
    simp [runApp, get_collection, h, load_orders]

/-- Claim C6 witness at a concrete non-empty connection string. -/
theorem empty_query_distinct_state_witness :
    runApp "mongodb" "retail" "orders" (Except.ok []) = RenderOutcome.emptyInfo :=
  (empty_query_distinct_state.2 "mongodb" "retail" "orders" (by decide)).1

/-- Claim C7: the connection resolver fails with a configuration error
whenever the connection string is empty/absent, performing no network
event at all (no client is constructed), and for a non-empty string it
returns a handle for the named database and collection. -/
theorem get_collection_config_check (uri dbName collName : String) :
    (uri = "" →
      get_collection uri dbName collName =
        (Except.error (AppError.configurationError
          "MONGO_URI is not set. Add it to Streamlit Secrets."), [])) ∧
    (uri ≠ "" →
      get_collection uri dbName collName =
        (Except.ok { clientUri := uri, dbName := dbName, collName := collName },
          [NetEvent.clientConstructed uri])) := by
  constructor <;> intro h <;> simp [get_collection, h]

/-- Claim C7 witness at both a missing and a present connection string. -/
theorem get_collection_config_check_witness :
    get_collection "" "retail" "orders" =
      (Except.error (AppError.configurationError
        "MONGO_URI is not set. Add it to Streamlit Secrets."), []) ∧
    get_collection "mongodb" "retail" "orders" =
      (Except.ok { clientUri := "mongodb", dbName := "retail", collName := "orders" },
        [NetEvent.clientConstructed "mongodb"]) :=
  ⟨(get_collection_config_check "" "retail" "orders").1 rfl,
   (get_collection_config_check "mongodb" "retail" "orders").2 (by decide)⟩

/-- Claim C8: on the empty filtered subset every aggregate completes and
produces zero, NaN (`none`) or empty results: the order count is 0, the
total revenue is 0, the average order value and average discount are NaN,
and every chart/table input is empty (the heat table still has its 7
weekday rows, with no hour columns). -/
theorem empty_subset_aggregates :
    order_count [] = 0 ∧ total_revenue [] = 0 ∧
    avg_order_value [] = none ∧ avg_discount_pct [] = none ∧
    daily_revenue [] = [] ∧ revenue_by_region [] = [] ∧
    revenue_by_channel [] = [] ∧ aov_by_loyalty [] = [] ∧
    avg_discount_by_channel [] = [] ∧
    revenue_heatmap [] = wd_order.map (fun w => (w, [])) ∧
    (revenue_heatmap []).length = 7 :=
  ⟨rfl, rfl, rfl, rfl, rfl, rfl, rfl, rfl, rfl, rfl, rfl⟩

/-- Claim C9: the flattened `categories` field is the comma-join of the
alphabetically sorted, deduplicated item category labels, a missing label
counting as the empty string; in particular
`["Shoes", "Shoes", "Hats"]` yields `"Hats,Shoes"`. -/
theorem categories_sorted_dedup_joined (items : List Item) :
    categoriesOf items = String.intercalate "," (categoryList items) ∧
    (categoryList items).Sorted (· ≤ ·) ∧
    (categoryList items).Nodup ∧
    (∀ s, s ∈ categoryList items ↔
      s ∈ items.map (fun it => it.category.getD "")) ∧
    categoriesOf [⟨some 1, some "Shoes"⟩, ⟨some 1, some "Shoes"⟩,
      ⟨some 1, some "Hats"⟩] = "Hats,Shoes" := by
  refine ⟨rfl, ?_, ?_, ?_, ?_⟩
  · exact List.sorted_insertionSort _ _
  · exact ((List.perm_insertionSort _ _).nodup_iff).mpr (List.nodup_dedup _)
  · intro s
    unfold categoryList
    rw [List.mem_insertionSort, List.mem_dedup]
  · simp [categoriesOf, categoryList, List.dedup_cons_of_mem,
      List.dedup_cons_of_not_mem, List.insertionSort, List.orderedInsert]
    decide

/-- Claim C3: the date filter keeps a row iff its timestamp lies in the
half-open interval `[start 00:00:00, (end+1 day) 00:00:00)`; a row at
`end_date 23:59:59` is included, a row at `(end_date+1) 00:00:00` is
excluded, and a null timestamp is always excluded. -/
theorem date_filter_boundaries (s e : Nat) (r : Row) :
    (dateMask s e r = true ↔
      ∃ t, r.purchase_ts = some t ∧ s * 86400 ≤ t ∧ t < (e + 1) * 86400) ∧
    (r.purchase_ts = none → dateMask s e r = false) ∧
    (s ≤ e → r.purchase_ts = some (e * 86400 + 86399) → dateMask s e r = true) ∧
    (r.purchase_ts = some ((e + 1) * 86400) → dateMask s e r = false) := by
  cases hts : r.purchase_ts with
  | none =>
    refine ⟨?_, fun _ => ?_, fun _ h => ?_, fun h => ?_⟩ <;>
      simp_all [dateMask, tsGe, tsLt]
  | some t =>
    refine ⟨?_, fun h => ?_, fun hse h => ?_, fun h => ?_⟩
    · simp [dateMask, tsGe, tsLt, hts]
    · simp at h
    · have ht := Option.some.inj h
      simp only [dateMask, tsGe, tsLt, hts, Bool.and_eq_true, decide_eq_true_eq]
      omega
    · have ht := Option.some.inj h
      have hlt : ¬ (t < (e + 1) * 86400) := by omega
      simp [dateMask, tsGe, tsLt, hts, hlt]

/-- Claim C3 witness: with the range [day 0, day 0], the timestamp
23:59:59 of day 0 is kept and midnight of day 1 is dropped. -/
theorem date_filter_boundaries_witness :
    dateMask 0 0 { baseRow with purchase_ts := some 86399 } = true ∧
    dateMask 0 0 { baseRow with purchase_ts := some 86400 } = false :=
  ⟨(date_filter_boundaries 0 0 _).2.2.1 (by decide) (by decide),
   (date_filter_boundaries 0 0 _).2.2.2 (by decide)⟩

/-- Claim C4: the filtered subset is exactly the rows satisfying the
conjunction of the date-range predicate and each non-empty categorical
set-membership predicate; an empty/unspecified set imposes no restriction
(its conjunct is vacuous). -/
theorem filter_conjunction (df : List Row) (s : FilterSpec) (r : Row) :
    r ∈ applyFilters df s ↔
      r ∈ df ∧ dateMask s.start_date s.end_date r = true ∧
      (s.region ≠ [] → optIsin r.region s.region = true) ∧
      (s.channel ≠ [] → optIsin r.channel s.channel = true) ∧
      (s.loyalty ≠ [] → optIsin r.loyalty_member s.loyalty = true) ∧
      (s.age ≠ [] → optIsin r.age_band s.age = true) := by
  rw [applyFilters, List.mem_filter, rowMask]
  simp only [Bool.and_eq_true, ifEmpty_eq_true_iff, and_assoc]

/-- Claim C4 witness: a concrete row kept by a filter with all four
categorical sets empty. -/
theorem filter_conjunction_witness :
    exNullRow ∈ [exNullRow] ∧
    dateMask exSpecNoLoyalty.start_date exSpecNoLoyalty.end_date exNullRow = true :=
  ⟨((filter_conjunction [exNullRow] exSpecNoLoyalty exNullRow).mp (by decide)).1,
   ((filter_conjunction [exNullRow] exSpecNoLoyalty exNullRow).mp (by decide)).2.1⟩

/-- Claim C10 (implicit): a row whose value on a filtered dimension is
null is excluded by any non-empty filter set on that dimension — in
particular selecting loyalty `{true, false}` (every possible non-null
value) excludes null-loyalty rows, while leaving the loyalty set empty
includes them, so the two are not equivalent. -/
theorem null_loyalty_excluded :
    (∀ (df : List Row) (s : FilterSpec) (r : Row),
      r.loyalty_member = none → s.loyalty ≠ [] → r ∉ applyFilters df s) ∧
    applyFilters [exNullRow] exSpecTF = [] ∧
    applyFilters [exNullRow] exSpecNoLoyalty = [exNullRow] := by
  refine ⟨?_, by decide, by decide⟩
  intro df s r hnull hne hmem
  rw [applyFilters, List.mem_filter, rowMask] at hmem
  have hloy := hmem.2
  simp only [Bool.and_eq_true, ifEmpty_eq_true_iff] at hloy
  have hpass := hloy.1.2 hne
  rw [hnull] at hpass
  simp [optIsin] at hpass

/-- Claim C10 witness: the concrete null-loyalty row is rejected by the
`{true, false}` loyalty filter. -/
theorem null_loyalty_excluded_witness :
    exNullRow ∉ applyFilters [exNullRow] exSpecTF :=
  null_loyalty_excluded.1 [exNullRow] exSpecTF exNullRow (by decide) (by decide)

/-- Claim C1 counterexample: on a dataset covering only Monday, the heat
table does have 7 rows in the fixed order, but the Tuesday×10h cell —
a weekday-by-hour cell with no matching rows — holds null (`none`), not 0:
`fillna(0)` runs before `reindex`, so the rows `reindex` adds for absent
weekdays stay NaN. -/
theorem revenue_heatmap_absent_weekday_null :
    exHeat.countP (fun r => r.weekday == some "Tuesday") = 0 ∧
    (revenue_heatmap exHeat).map Prod.fst = wd_order ∧
    (revenue_heatmap exHeat).lookup "Tuesday" = some [(none : Option ℚ)] ∧
    (some [(none : Option ℚ)] : Option (List (Option ℚ))) ≠ some [some 0] := by
  refine ⟨by decide, by decide, by decide, by decide⟩

/-- Claim C1 (amended): the heat table always has exactly 7 rows labelled
Monday through Sunday in that fixed order; for a weekday that occurs in
the data (with non-null weekday and hour), every cell holds a number —
the sum of `total_amount` for that weekday and hour, or 0 if the
combination has no rows; but the row of a weekday absent from the data
holds null in every hour column. -/
theorem revenue_heatmap_rows (f : List Row) :
    (revenue_heatmap f).map Prod.fst = wd_order ∧
    (revenue_heatmap f).length = 7 ∧
    ∀ p, p ∈ revenue_heatmap f →
      (p.1 ∈ heatWeekdays f →
        p.2 = (heatHours f).map (fun h => some ((pivotCell f p.1 h).getD 0))) ∧
      (p.1 ∉ heatWeekdays f →
        p.2 = List.replicate (heatHours f).length none) := by
  have hmapfst : (revenue_heatmap f).map Prod.fst = wd_order := by
    simp [revenue_heatmap, reindexRows, List.map_map, Function.comp_def]
  refine ⟨hmapfst, ?_, ?_⟩
  · have hlen := congrArg List.length hmapfst
    simpa using hlen
  · intro p hp
    rw [revenue_heatmap, reindexRows, List.mem_map] at hp
    obtain ⟨w, _, rfl⟩ := hp
    constructor
    · intro hwin
      rw [fillna_pivot_eq,
        lookup_map_self _ _ w (heatWeekdays_nodup f) hwin]
      rfl
    · intro hwout
      rw [fillna_pivot_eq, lookup_map_self_none _ _ w hwout]
      rfl

/-- Claim C1 witness: on the Monday-only dataset the Monday row is
present with its numeric cells. -/
theorem revenue_heatmap_rows_witness :
    ("Monday" ∈ heatWeekdays exHeat) ∧
    (("Monday", [some (5 : ℚ)]) ∈ revenue_heatmap exHeat) ∧
    [some (5 : ℚ)] =
      (heatHours exHeat).map (fun h => some ((pivotCell exHeat "Monday" h).getD 0)) := by
  have hw : "Monday" ∈ heatWeekdays exHeat := by decide
  have hcell : (heatHours exHeat).map
      (fun h => some ((pivotCell exHeat "Monday" h).getD 0)) = [some (5 : ℚ)] := by
    have hhrs : heatHours exHeat = [10] := by decide
    have hc : pivotCell exHeat "Monday" 10 = some 5 := by
      have hcr : cellRows exHeat "Monday" 10 = exHeat := by decide
      unfold pivotCell
      rw [hcr]
      norm_num [exHeat, baseRow, List.filterMap_cons, List.sum_cons]
    rw [hhrs, List.map_cons, List.map_nil, hc]
    rfl
  have hmem : ("Monday", [some (5 : ℚ)]) ∈ revenue_heatmap exHeat := by
    rw [revenue_heatmap, reindexRows]
    apply List.mem_map.mpr
    refine ⟨"Monday", by decide, ?_⟩
    rw [fillna_pivot_eq, lookup_map_self _ _ "Monday" (heatWeekdays_nodup _) hw]
    simp [hcell]
  have h := ((revenue_heatmap_rows exHeat).2.2 ("Monday", [some (5 : ℚ)]) hmem).1 hw
  exact ⟨hw, hmem, h⟩

/-- Claim C2 counterexample: with orders only on day 0 and day 2,
`daily_revenue` contains an entry `(1, 0)` for a calendar day between the
minimum and maximum date that has no rows — `resample("D")` fills the
gap day with a zero sum instead of omitting it. -/
theorem daily_revenue_gap_day :
    daily_revenue exDaily = [(0, (100 : ℚ)), (1, 0), (2, 200)] ∧
    exDaily.countP (fun r => r.purchase_ts.map dayOf == some 1) = 0 := by
  constructor
  · norm_num [daily_revenue, tsDays, exDaily, baseRow, daySum, dayOf,
      List.range_succ, List.filterMap_cons, List.filter_cons, List.sum_cons]
  · decide

/-- Claim C2 (amended): `daily_revenue` is chronologically ordered with
consecutive day labels, one point per calendar day from the earliest to
the latest day present in the filtered data; each point holds the sum of
`total_amount` for its day (0 for days with no rows), and every day that
occurs in the data has a point. -/
theorem daily_revenue_consecutive_days (f : List Row) :
    List.Chain' (fun p q => p.1 + 1 = q.1) (daily_revenue f) ∧
    (∀ p, p ∈ daily_revenue f → p.2 = daySum f p.1) ∧
    (∀ r, r ∈ f → ∀ t, r.purchase_ts = some t →
      ∃ p, p ∈ daily_revenue f ∧ p.1 = dayOf t) := by
  refine ⟨?_, ?_, ?_⟩
  · cases htd : tsDays f with
    | nil => simp [daily_revenue, htd]
    | cons d ds =>
      simp only [daily_revenue, htd]
      rw [List.chain'_iff_get]
      intro i hi
      simp only [List.length_map, List.length_range] at hi
      simp only [List.get_eq_getElem, List.getElem_map, List.getElem_range]
      omega
  · intro p hp
    cases htd : tsDays f with
    | nil => simp [daily_revenue, htd] at hp
    | cons d ds =>
      simp only [daily_revenue, htd, List.mem_map] at hp
      obtain ⟨i, _, rfl⟩ := hp
      rfl
  · intro r hr t ht
    have hday : dayOf t ∈ tsDays f := by
      rw [tsDays]
      exact List.mem_map.mpr ⟨t, List.mem_filterMap.mpr ⟨r, hr, ht⟩, rfl⟩
    cases htd : tsDays f with
    | nil => rw [htd] at hday; cases hday
    | cons d ds =>
      rw [htd] at hday
      have hmin : ds.foldl min d ≤ dayOf t := by
        rcases List.mem_cons.mp hday with rfl | h
        · exact foldl_min_le_init _ _
        · exact foldl_min_le_mem _ _ _ h
      have hmax : dayOf t ≤ ds.foldl max d := by
        rcases List.mem_cons.mp hday with rfl | h
        · exact init_le_foldl_max _ _
        · exact mem_le_foldl_max _ _ _ h
      simp only [daily_revenue, htd]
      refine ⟨(ds.foldl min d + (dayOf t - ds.foldl min d),
        daySum f (ds.foldl min d + (dayOf t - ds.foldl min d))), ?_, by omega⟩
      exact List.mem_map.mpr ⟨dayOf t - ds.foldl min d,
        List.mem_range.mpr (by omega), rfl⟩

/-- Claim C2 witness: on the concrete two-order dataset the series is a
consecutive chain and the gap-day point `(1, 0)` carries that day's
(empty) revenue sum. -/
theorem daily_revenue_consecutive_days_witness :
    List.Chain' (fun p q => p.1 + 1 = q.1) (daily_revenue exDaily) ∧
    ((1 : Nat), (0 : ℚ)).2 = daySum exDaily ((1 : Nat), (0 : ℚ)).1 := by
  have hd : daily_revenue exDaily = [(0, (100 : ℚ)), (1, 0), (2, 200)] := by
    norm_num [daily_revenue, tsDays, exDaily, baseRow, daySum, dayOf,
      List.range_succ, List.filterMap_cons, List.filter_cons, List.sum_cons]
  have hmem : ((1 : Nat), (0 : ℚ)) ∈ daily_revenue exDaily := by
    rw [hd]
    exact List.mem_cons_of_mem _ (List.mem_cons_self _ _)
  exact ⟨(daily_revenue_consecutive_days exDaily).1,
    (daily_revenue_consecutive_days exDaily).2.1 _ hmem⟩

end RetailDashboard
